import Mathlib

/-!
# Verification of the upchat access-control and audit core

Shallow embedding of the session-authenticated access-control, file store and
audit subsystem of the repository (src/lib/auth.ts, src/actions/files.ts,
src/app/api/files/[...filepath]/route.ts, the user actions and the sqlite
schema), together with theorems settling the specification claims.

Database tables are modelled as lists of rows, timestamps as integer
milliseconds, and Node specifics (path handling, `parseInt`,
`crypto.timingSafeEqual`, SHA-256) are embedded directly.  Free-text log
`details` strings are elided from the log model; every other column of the
`logs` table (user_id, ip_address, action, type, resource_id) is kept.
-/

namespace Upchat

set_option maxRecDepth 10000

/-! ## JavaScript / Node primitives -/

/-- Whitespace recognised by JS `parseInt` when skipping the prefix. -/
def isJsSpace (c : Char) : Bool :=
  c == ' ' || c == '\t' || c == '\n' || c == '\r'

/-- JS `parseInt(s, 10)`: skip leading whitespace, optional sign, read leading
decimal digits; `none` models `NaN` (no digits found). -/
def parseIntJS (s : String) : Option Int :=
  let cs := s.data.dropWhile isJsSpace
  let signed : Bool × List Char :=
    match cs with
    | '-' :: rest => (true, rest)
    | '+' :: rest => (false, rest)
    | _ => (false, cs)
  let ds := signed.2.takeWhile Char.isDigit
  if ds = [] then none
  else
    let n : Nat := ds.foldl (fun a c => a * 10 + (c.toNat - 48)) 0
    some (if signed.1 then -(n : Int) else (n : Int))

/-- Prefix test on character lists (JS `String.prototype.startsWith`). -/
def listIsPrefix : List Char → List Char → Bool
  | [], _ => true
  | _ :: _, [] => false
  | a :: as, b :: bs => a == b && listIsPrefix as bs

/-- `s.startsWith(pre)` of JS. -/
def jsStartsWith (s pre : String) : Bool :=
  listIsPrefix pre.data s.data

/-- Split a character list on a separator character. -/
def splitOnChar (c : Char) : List Char → List (List Char)
  | [] => [[]]
  | x :: rest =>
    match splitOnChar c rest with
    | [] => [[]]
    | h :: t => if x == c then [] :: h :: t else (x :: h) :: t

/-- `s.split(c)` of JS for a one-character separator. -/
def splitStr (s : String) (c : Char) : List String :=
  (splitOnChar c s.data).map (fun l => String.mk l)

/-- `s.toLowerCase()` (ASCII range, as the settings values use). -/
def toLowerStr (s : String) : String :=
  String.mk (s.data.map Char.toLower)

/-- `s.trim()` of JS (common whitespace). -/
def trimStr (s : String) : String :=
  String.mk (((s.data.dropWhile isJsSpace).reverse.dropWhile isJsSpace).reverse)

/-! ### Node `path` (posix) -/

/-- Split a path string into its non-empty segments. -/
def splitSegs (s : String) : List String :=
  (splitStr s '/').filter (fun seg => seg ≠ "")

/-- One step of path normalization: `.` is dropped, `..` pops the previous
segment (kept at the front of a relative path, dropped at the root of an
absolute one). -/
def normStep (isAbs : Bool) (acc : List String) (seg : String) : List String :=
  if seg = "." then acc
  else if seg = ".." then
    match acc.getLast? with
    | some l => if l = ".." && !isAbs then acc ++ [".."] else acc.dropLast
    | none => if isAbs then [] else [".."]
  else acc ++ [seg]

def normSegs (isAbs : Bool) (segs : List String) : List String :=
  segs.foldl (normStep isAbs) []

/-- Node `path.normalize` (posix), restricted to paths without trailing-slash
significance. -/
def pathNormalize (p : String) : String :=
  let isAbs := jsStartsWith p "/"
  let segs := normSegs isAbs (splitSegs p)
  if isAbs then "/" ++ String.intercalate "/" segs
  else if segs = [] then "." else String.intercalate "/" segs

/-- Node `path.join(parts...)` (posix). -/
def pathJoin (parts : List String) : String :=
  pathNormalize (String.intercalate "/" parts)

/-- Node `path.resolve(cwd, p)` for an absolute `cwd` (as `process.cwd()`
always is). -/
def pathResolve (cwd p : String) : String :=
  if jsStartsWith p "/" then pathNormalize p
  else pathNormalize (cwd ++ "/" ++ p)

/-- The spec-side meaning of a path lying under a directory root: it is the
root itself or a proper descendant (root followed by a path separator).  Used
to compare the specification's "resolved path falls under the upload root"
with the code's `startsWith` check. -/
def isUnderDir (root p : String) : Bool :=
  p == root || jsStartsWith p (root ++ "/")

/-! ### SHA-256 (crypto.createHash('sha256'), over bytes as `Nat < 256`) -/

def w32 (n : Nat) : Nat := n % 4294967296

def rotr32 (r x : Nat) : Nat := w32 ((x >>> r) ||| (x <<< (32 - r)))

def sigB0 (x : Nat) : Nat := (rotr32 2 x) ^^^ (rotr32 13 x) ^^^ (rotr32 22 x)

def sigB1 (x : Nat) : Nat := (rotr32 6 x) ^^^ (rotr32 11 x) ^^^ (rotr32 25 x)

def sigS0 (x : Nat) : Nat := (rotr32 7 x) ^^^ (rotr32 18 x) ^^^ (x >>> 3)

def sigS1 (x : Nat) : Nat := (rotr32 17 x) ^^^ (rotr32 19 x) ^^^ (x >>> 10)

def sha256K : Array Nat := #[
  1116352408, 1899447441, 3049323471, 3921009573, 961987163,
  1508970993, 2453635748, 2870763221, 3624381080, 310598401,
  607225278, 1426881987, 1925078388, 2162078206, 2614888103,
  3248222580, 3835390401, 4022224774, 264347078, 604807628,
  770255983, 1249150122, 1555081692, 1996064986, 2554220882,
  2821834349, 2952996808, 3210313671, 3336571891, 3584528711,
  113926993, 338241895, 666307205, 773529912, 1294757372,
  1396182291, 1695183700, 1986661051, 2177026350, 2456956037,
  2730485921, 2820302411, 3259730800, 3345764771, 3516065817,
  3600352804, 4094571909, 275423344, 430227734, 506948616,
  659060556, 883997877, 958139571, 1322822218, 1537002063,
  1747873779, 1955562222, 2024104815, 2227730452, 2361852424,
  2428436474, 2756734187, 3204031479, 3329325298]

def sha256H0 : Array Nat := #[
  1779033703, 3144134277, 1013904242, 2773480762, 1359893119,
  2600822924, 528734635, 1541459225]

/-- Append the `0x80` marker, zero padding, and the 64-bit big-endian bit
length, reaching a multiple of 64 bytes. -/
def sha256Pad (msg : List Nat) : List Nat :=
  let L := msg.length
  let k := (55 + 64 - (L % 64)) % 64
  let lenBits := 8 * L
  msg ++ [0x80] ++ List.replicate k 0 ++
    [(lenBits >>> 56) % 256, (lenBits >>> 48) % 256, (lenBits >>> 40) % 256,
     (lenBits >>> 32) % 256, (lenBits >>> 24) % 256, (lenBits >>> 16) % 256,
     (lenBits >>> 8) % 256, lenBits % 256]

def bytesToWordsBE : List Nat → List Nat
  | a :: b :: c :: d :: rest => ((a <<< 24) ||| (b <<< 16) ||| (c <<< 8) ||| d) :: bytesToWordsBE rest
  | _ => []

def chunkWords16 : List Nat → List (List Nat)
  | w0 :: w1 :: w2 :: w3 :: w4 :: w5 :: w6 :: w7 ::
    w8 :: w9 :: w10 :: w11 :: w12 :: w13 :: w14 :: w15 :: rest =>
    [w0, w1, w2, w3, w4, w5, w6, w7, w8, w9, w10, w11, w12, w13, w14, w15] ::
      chunkWords16 rest
  | _ => []

/-- Extend the 16 message words of a block to the 64-word schedule. -/
def sha256Schedule (ws : Array Nat) : Array Nat :=
  (List.range 48).foldl (fun a i =>
    let t := i + 16
    a.push (w32 (sigS1 (a.getD (t - 2) 0) + a.getD (t - 7) 0 +
                 sigS0 (a.getD (t - 15) 0) + a.getD (t - 16) 0))) ws

def sha256Compress (h : Array Nat) (block : List Nat) : Array Nat :=
  let w := sha256Schedule (List.toArray block)
  let step := fun (st : Nat × Nat × Nat × Nat × Nat × Nat × Nat × Nat) (i : Nat) =>
    let (a, b, c, d, e, f, g, hh) := st
    let ch := (e &&& f) ^^^ ((4294967295 ^^^ e) &&& g)
    let maj := (a &&& b) ^^^ (a &&& c) ^^^ (b &&& c)
    let t1 := w32 (hh + sigB1 e + ch + w.getD i 0 + sha256K.getD i 0)
    let t2 := w32 (sigB0 a + maj)
    (w32 (t1 + t2), a, b, c, w32 (d + t1), e, f, g)
  let init := (h.getD 0 0, h.getD 1 0, h.getD 2 0, h.getD 3 0,
               h.getD 4 0, h.getD 5 0, h.getD 6 0, h.getD 7 0)
  let fin := (List.range 64).foldl step init
  let (a, b, c, d, e, f, g, hh) := fin
  #[w32 (h.getD 0 0 + a), w32 (h.getD 1 0 + b), w32 (h.getD 2 0 + c), w32 (h.getD 3 0 + d),
    w32 (h.getD 4 0 + e), w32 (h.getD 5 0 + f), w32 (h.getD 6 0 + g), w32 (h.getD 7 0 + hh)]

def wordToBytesBE (n : Nat) : List Nat :=
  [(n >>> 24) % 256, (n >>> 16) % 256, (n >>> 8) % 256, n % 256]

/-- SHA-256 digest (32 bytes) of a byte list. -/
def sha256 (msg : List Nat) : List Nat :=
  let blocks := chunkWords16 (bytesToWordsBE (sha256Pad msg))
  let hs := blocks.foldl sha256Compress sha256H0
  hs.toList.flatMap wordToBytesBE

def hexDigit (n : Nat) : Char :=
  if n < 10 then Char.ofNat (48 + n) else Char.ofNat (87 + n)

def byteToHex (n : Nat) : String :=
  String.mk [hexDigit (n / 16 % 16), hexDigit (n % 16)]

def bytesToHex (l : List Nat) : String :=
  String.join (l.map byteToHex)

/-- UTF-8 encoding of one character (`Buffer.from(string)` byte semantics). -/
def utf8EncodeChar (c : Char) : List Nat :=
  let n := c.toNat
  if n < 0x80 then [n]
  else if n < 0x800 then
    [0xC0 ||| (n >>> 6), 0x80 ||| (n &&& 0x3F)]
  else if n < 0x10000 then
    [0xE0 ||| (n >>> 12), 0x80 ||| ((n >>> 6) &&& 0x3F), 0x80 ||| (n &&& 0x3F)]
  else
    [0xF0 ||| (n >>> 18), 0x80 ||| ((n >>> 12) &&& 0x3F),
     0x80 ||| ((n >>> 6) &&& 0x3F), 0x80 ||| (n &&& 0x3F)]

def utf8Encode (s : String) : List Nat :=
  s.data.flatMap utf8EncodeChar

/-! ## Data model (sqlite schema of src/lib/db.ts) -/

/-- Row of the `users` table. -/
structure User where
  id : Int
  username : String
  email : String
  password_hash : String
  role : String
  status : String
deriving Repr, DecidableEq

/-- Row of the `sessions` table. -/
structure Session where
  session_id : String
  user_id : Int
  expires_at : Int
  created_at : Int
  ip_address : String
  user_agent : String
deriving Repr, DecidableEq

/-- Row of the `files` table. -/
structure FileRec where
  id : Int
  name : String
  type : String
  size : Nat
  uploader_id : Option Int
  visibility : String
  path : String
deriving Repr, DecidableEq

/-- Row of the `logs` table (free-text `details` elided). -/
structure LogEntry where
  user_id : Option Int
  ip_address : String
  action : String
  type : String
  resource_id : Option Int
deriving Repr, DecidableEq

/-- The persistent state: the sqlite tables plus the set of paths present on
disk under the upload directory (`disk` holds absolute paths). -/
structure Store where
  users : List User
  sessions : List Session
  files : List FileRec
  logs : List LogEntry
  settings : List (String × String)
  disk : List String
deriving Repr, DecidableEq

/-- `INSERT INTO logs ...` -/
def addLog (st : Store) (e : LogEntry) : Store :=
  { st with logs := st.logs ++ [e] }

/-- `SELECT value FROM settings WHERE key = ?` -/
def getSettingOpt (st : Store) (k : String) : Option String :=
  (st.settings.find? (fun p => p.1 == k)).map (fun p => p.2)

/-- `getSetting` of src/actions/files.ts: `setting?.value ?? defaultValue`. -/
def getSetting (st : Store) (k dflt : String) : String :=
  (getSettingOpt st k).getD dflt

/-- The `db...get(key)?.value || dflt` pattern (JS falsy: a missing row or an
empty string both fall back to the default). -/
def getSettingOr (st : Store) (k dflt : String) : String :=
  match getSettingOpt st k with
  | some v => if v = "" then dflt else v
  | none => dflt

/-- `SELECT user_id FROM sessions WHERE session_id = ? AND expires_at >
CURRENT_TIMESTAMP` — the session-cookie resolution helper shared by
files.ts and the byte-server route. -/
def getUserIdFromSession (st : Store) (now : Int) (sessionId : Option String) : Option Int :=
  match sessionId with
  | none => none
  | some sid =>
    (st.sessions.find? (fun s => s.session_id == sid && now < s.expires_at)).map
      (fun s => s.user_id)

/-- `SELECT role FROM users WHERE id = ?` -/
def getUserRole (st : Store) (userId : Int) : Option String :=
  (st.users.find? (fun u => u.id == userId)).map (fun u => u.role)

/-- `getUserFromSession` of the user actions: joins `sessions` with `users`
and returns (id, role) for a valid, unexpired session. -/
def getUserFromSession (st : Store) (now : Int) (sessionId : Option String) :
    Option (Int × String) :=
  match sessionId with
  | none => none
  | some sid =>
    match st.sessions.find? (fun s => s.session_id == sid && now < s.expires_at) with
    | none => none
    | some s =>
      (st.users.find? (fun u => u.id == s.user_id)).map (fun u => (u.id, u.role))

/-! ## Credential manager (src/lib/auth.ts) -/

/-- `hashPassword`: hex SHA-256 digest of the UTF-8 password bytes. -/
def hashPassword (password : String) : String :=
  bytesToHex (sha256 (utf8Encode password))

/-- `crypto.timingSafeEqual(Buffer.from(a), Buffer.from(b))`: throws a
`RangeError` when the byte lengths differ, otherwise compares. -/
def timingSafeEqual (a b : List Nat) : Except String Bool :=
  if a.length = b.length then Except.ok (a == b)
  else Except.error "Input buffers must have the same byte length"

/-- `verifyPassword(password, storedHash)`; the `Except` carries the
exception `crypto.timingSafeEqual` can raise. -/
def verifyPassword (password storedHash : String) : Except String Bool :=
  timingSafeEqual (utf8Encode (hashPassword password)) (utf8Encode storedHash)

/-- `createSession(userId, ipAddress, userAgent)` of auth.ts: reads the
`sessionTimeoutMinutes` setting (`?.value || '30'`, then `parseInt`) and
inserts the session row.  The fresh random token and the clock are passed in
explicitly; an unparsable timeout (JS `NaN`, yielding an invalid expiry date)
is modelled as 0. -/
def createSession (st : Store) (now : Int) (sessionId : String) (userId : Int)
    (ipAddress userAgent : String) : Store :=
  let sessionTimeoutMinutes := (parseIntJS (getSettingOr st "sessionTimeoutMinutes" "30")).getD 0
  { st with sessions := st.sessions ++
      [{ session_id := sessionId, user_id := userId,
         expires_at := now + sessionTimeoutMinutes * 60000,
         created_at := now, ip_address := ipAddress, user_agent := userAgent }] }

/-- `verifySession(sessionId)` of auth.ts: absent token (JS falsy empty
string) or unknown token gives `null`; an expired row is deleted lazily and
`null` returned; otherwise the owning user id. -/
def verifySession (st : Store) (now : Int) (sessionId : String) : Option Int × Store :=
  if sessionId = "" then (none, st)
  else
    match st.sessions.find? (fun s => s.session_id == sessionId) with
    | none => (none, st)
    | some session =>
      if session.expires_at < now then
        (none, { st with sessions := st.sessions.filter (fun s => !(s.session_id == sessionId)) })
      else
        (some session.user_id, st)

/-! ## File byte server (src/app/api/files/[...filepath]/route.ts) -/

/-- HTTP response of the byte-server `GET`, reduced to its status code
(200 serves the bytes; header negotiation is not needed by the claims). -/
structure HttpResp where
  status : Nat
deriving Repr, DecidableEq

/-- The `GET` handler: session check, path reconstruction with the
`startsWith` traversal check, metadata lookup by path, permission check,
disk-presence check, then the served response; every outcome logs as in the
source. -/
def routeGET (st : Store) (cwd ip : String) (now : Int) (sessionId : Option String)
    (filepath : List String) (isPreview : Bool) : HttpResp × Store :=
  match getUserIdFromSession st now sessionId with
  | none => (⟨401⟩, st)
  | some userId =>
    let relativePath := pathJoin ("uploads" :: filepath)
    let requestedPath := pathNormalize relativePath
    let uploadDirResolved := pathResolve cwd "uploads"
    let resolvedPath := pathResolve cwd requestedPath
    if ¬ (jsStartsWith resolvedPath uploadDirResolved) then
      (⟨403⟩, addLog st ⟨some userId, ip, "Path Traversal Attempt", "security", none⟩)
    else
      match st.files.find? (fun f => f.path == relativePath) with
      | none => (⟨404⟩, addLog st ⟨some userId, ip, "File Access Error", "file", none⟩)
      | some fileRecord =>
        let userRole := getUserRole st userId
        if fileRecord.visibility = "private" ∧ fileRecord.uploader_id ≠ some userId ∧
            userRole ≠ some "admin" then
          (⟨403⟩, addLog st ⟨some userId, ip, "File Access Denied", "security",
                             some fileRecord.id⟩)
        else
          let absolutePath := pathResolve cwd fileRecord.path
          if ¬ (st.disk.contains absolutePath) then
            (⟨404⟩, addLog st ⟨some userId, ip, "File Access Error", "system",
                               some fileRecord.id⟩)
          else
            (⟨200⟩, addLog st ⟨some userId, ip,
                               if isPreview then "File Preview" else "File Download",
                               "file", some fileRecord.id⟩)

/-! ## File store actions (src/actions/files.ts) -/

/-- Result of a server action: `{ success, error?, message? }`. -/
structure ActionRes where
  success : Bool
  error : Option String
  message : Option String
deriving Repr, DecidableEq

def actErr (e : String) : ActionRes := ⟨false, some e, none⟩

def actOk (m : String) : ActionRes := ⟨true, none, some m⟩

/-- The `File` object taken from the upload form data. -/
structure FileInput where
  name : String
  type : String
  size : Nat
deriving Repr, DecidableEq

/-- sqlite `lastInsertRowid` for the `files` table. -/
def nextFileId (st : Store) : Int :=
  (st.files.foldl (fun m f => max m f.id) 0) + 1

/-- `file.name.replace(/[^a-zA-Z0-9_.-]/g, '_')` -/
def sanitizeFilename (s : String) : String :=
  String.mk (s.data.map (fun c =>
    if c.isAlpha || c.isDigit || c = '_' || c = '.' || c = '-' then c else '_'))

/-- Node `path.extname` on the basename: the suffix from the last dot, empty
when there is no dot, the dot is the leading character, or the basename is
all dots (`.` / `..`). -/
def extname (p : String) : String :=
  let base := (splitStr p '/').getLastD ""
  if base = "." ∨ base = ".." then ""
  else
    let cs := base.data
    match (cs.reverse.takeWhile (fun c => c ≠ '.')).length, cs.contains '.' with
    | _, false => ""
    | suffixLen, true =>
      let dotIdx := cs.length - suffixLen - 1
      if dotIdx = 0 then "" else String.mk (cs.drop dotIdx)

/-- The normalized allow-list from the `allowedFileTypes` setting:
split on commas, trim, lower-case, strip one leading dot, drop empties. -/
def allowedExtensionsOf (st : Store) : List String :=
  (((splitStr (getSetting st "allowedFileTypes" "") ',').map (fun ext =>
    let e := toLowerStr (trimStr ext)
    if jsStartsWith e "." then e.drop 1 else e)).filter (fun e => e ≠ ""))

/-- `${maxSizeMB}` in the TooLarge message (`NaN` prints as such). -/
def jsNumStr (o : Option Int) : String :=
  match o with
  | some m => toString m
  | none => "NaN"

/-- `uploadFile(formData)`.  `uniqueSuffix` stands for the random hex suffix
of the storage filename and `now` for `Date.now()`; `file?` is
`formData.get('file')`. -/
def uploadFile (st : Store) (cwd ip : String) (now : Int) (sessionId : Option String)
    (file? : Option FileInput) (visibility : String) (uniqueSuffix : String) :
    ActionRes × Store :=
  match getUserIdFromSession st now sessionId with
  | none => (actErr "Authentication required.", st)
  | some userId =>
    match file? with
    | none => (actErr "No file provided.", st)
    | some file =>
      let maxSizeMB := parseIntJS (getSetting st "fileSizeLimitMB" "10")
      let allowedExtensions := allowedExtensionsOf st
      let sizeTooBig :=
        match maxSizeMB with
        | none => false
        | some m => decide ((file.size : Int) > m * 1048576)
      if sizeTooBig then
        (actErr ("File size exceeds the limit of " ++ jsNumStr maxSizeMB ++ " MB."), st)
      else
        let fileExtension := (toLowerStr (extname file.name)).drop 1
        if allowedExtensions ≠ [] ∧ fileExtension ∉ allowedExtensions then
          (actErr ("File type '." ++ fileExtension ++ "' is not allowed."), st)
        else
          let filename := toString now ++ "-" ++ uniqueSuffix ++ "-" ++ sanitizeFilename file.name
          let filePath := pathJoin [pathResolve cwd "uploads", filename]
          let relativePath := pathJoin ["uploads", filename]
          let fileId := nextFileId st
          let st1 := { st with disk := st.disk ++ [filePath] }
          let st2 := { st1 with files := st1.files ++
            [{ id := fileId, name := file.name, type := file.type, size := file.size,
               uploader_id := some userId, visibility := visibility, path := relativePath }] }
          (actOk "File uploaded successfully.",
           addLog st2 ⟨some userId, ip, "File Upload", "file", some fileId⟩)

/-- `toggleFileVisibility(fileId, newVisibility)`. -/
def toggleFileVisibility (st : Store) (ip : String) (now : Int) (sessionId : Option String)
    (fileId : Int) (newVisibility : String) : ActionRes × Store :=
  match getUserIdFromSession st now sessionId with
  | none => (actErr "Authentication required.", st)
  | some userId =>
    let userRole := getUserRole st userId
    match st.files.find? (fun f => f.id == fileId) with
    | none => (actErr "File not found.", st)
    | some file =>
      if file.uploader_id ≠ some userId ∧ userRole ≠ some "admin" then
        (actErr "Permission denied.",
         addLog st ⟨some userId, ip, "Unauthorized Action", "security", some fileId⟩)
      else if file.visibility = newVisibility then
        (actOk "Visibility already set.", st)
      else
        let st1 := { st with files := st.files.map (fun g =>
          if g.id == fileId then { g with visibility := newVisibility } else g) }
        (actOk ("File visibility changed to " ++ newVisibility ++ "."),
         addLog st1 ⟨some userId, ip, "File Visibility Change", "file", some fileId⟩)

/-- `deleteFile(fileId)`.  `auditFails` injects a failure of the final
audit-ledger `INSERT` (line 331): when it throws, control reaches the outer
`catch`, which writes the operational error log and returns the generic
failure — the already-committed row deletion and unlink are not undone. -/
def deleteFile (st : Store) (cwd ip : String) (now : Int) (sessionId : Option String)
    (fileId : Int) (auditFails : Bool) : ActionRes × Store :=
  match getUserIdFromSession st now sessionId with
  | none => (actErr "Authentication required.", st)
  | some userId =>
    let userRole := getUserRole st userId
    match st.files.find? (fun f => f.id == fileId) with
    | none => (actErr "File not found.", st)
    | some file =>
      if file.uploader_id ≠ some userId ∧ userRole ≠ some "admin" then
        (actErr "Permission denied to delete this file.",
         addLog st ⟨some userId, ip, "Unauthorized Action", "security", some fileId⟩)
      else
        let filePath := pathResolve cwd file.path
        let st1 := { st with files := st.files.filter (fun g => !(g.id == fileId)) }
        let st2 := { st1 with disk := st1.disk.filter (fun p => p ≠ filePath) }
        if auditFails then
          (actErr "Failed to delete file.",
           addLog st2 ⟨some userId, ip, "File Deletion Error", "system", some fileId⟩)
        else
          (actOk "File deleted successfully.",
           addLog st2 ⟨some userId, ip, "File Deletion", "file", some fileId⟩)

/-- `fileInfo` returned by `getDownloadFileInfo`. -/
structure DownloadInfo where
  name : String
  path : String
  type : String
deriving Repr, DecidableEq

/-- `getDownloadFileInfo(fileId)`: permission check, disk-presence check,
audit entry, then the file info for the client. -/
def getDownloadFileInfo (st : Store) (cwd ip : String) (now : Int)
    (sessionId : Option String) (fileId : Int) :
    (ActionRes × Option DownloadInfo) × Store :=
  match getUserIdFromSession st now sessionId with
  | none => ((actErr "Authentication required.", none), st)
  | some userId =>
    match st.files.find? (fun f => f.id == fileId) with
    | none => ((actErr "File not found.", none), st)
    | some file =>
      let userRole := getUserRole st userId
      if file.visibility = "private" ∧ file.uploader_id ≠ some userId ∧
          userRole ≠ some "admin" then
        ((actErr "Access denied to this file.", none),
         addLog st ⟨some userId, ip, "File Access Denied", "security", some fileId⟩)
      else
        let absolutePath := pathResolve cwd file.path
        if ¬ (st.disk.contains absolutePath) then
          ((actErr "File data is missing. Please contact support.", none),
           addLog st ⟨some userId, ip, "File Download Error", "system", some fileId⟩)
        else
          (({ success := true, error := none, message := none },
            some ⟨file.name, file.path, file.type⟩),
           addLog st ⟨some userId, ip, "File Download", "file", some fileId⟩)

/-! ## User and auth actions (src/actions/users.ts) -/

/-- Result of `loginUser`. -/
structure LoginRes where
  success : Bool
  error : Option String
  userId : Option Int
deriving Repr, DecidableEq

/-- `loginUser(values)`: zod validation, user lookup, status check, password
verification (whose possible `timingSafeEqual` exception lands in the outer
`catch`), maintenance-mode gate, then session creation.  `newToken` stands
for the random session id and `now` for the clock. -/
def loginUser (st : Store) (ip ua newToken : String) (now : Int)
    (username password : String) : LoginRes × Store :=
  if username = "" ∨ password = "" then
    (⟨false, some "Invalid input.", none⟩, st)
  else
    match st.users.find? (fun u => u.username == username) with
    | none =>
      (⟨false, some "Invalid username or password.", none⟩,
       addLog st ⟨none, ip, "Login Failure", "auth", none⟩)
    | some user =>
      if user.status ≠ "active" then
        (⟨false, some "Account is inactive.", none⟩,
         addLog st ⟨some user.id, ip, "Login Failure", "auth", some user.id⟩)
      else
        match verifyPassword password user.password_hash with
        | Except.error _ =>
          (⟨false, some "An internal server error occurred.", none⟩,
           addLog st ⟨none, ip, "Login Error", "system", none⟩)
        | Except.ok false =>
          (⟨false, some "Invalid username or password.", none⟩,
           addLog st ⟨some user.id, ip, "Login Failure", "auth", some user.id⟩)
        | Except.ok true =>
          if getSettingOpt st "maintenanceMode" = some "true" ∧ user.role ≠ "admin" then
            (⟨false, some "Platform is currently under maintenance. Please try again later.", none⟩,
             addLog st ⟨some user.id, ip, "Login Failure", "auth", some user.id⟩)
          else
            let st1 := createSession st now newToken user.id ip ua
            (⟨true, none, some user.id⟩,
             addLog st1 ⟨some user.id, ip, "Login Success", "auth", some user.id⟩)

/-- Approximation of the zod email format check (nonempty, contains `@`);
only its success/failure gates the modelled control flow. -/
def validEmailApprox (e : String) : Bool :=
  e ≠ "" && e.data.contains '@'

/-- sqlite `lastInsertRowid` for the `users` table. -/
def nextUserId (st : Store) : Int :=
  (st.users.foldl (fun m u => max m u.id) 0) + 1

/-- `registerUser(values)` (admin only). -/
def registerUser (st : Store) (ip : String) (now : Int) (sessionId : Option String)
    (username email password role : String) : ActionRes × Store :=
  match getUserFromSession st now sessionId with
  | none => (actErr "Authentication required.", st)
  | some (adminId, adminRole) =>
    if adminRole ≠ "admin" then
      (actErr "Permission denied. Only administrators can create users.",
       addLog st ⟨some adminId, ip, "Unauthorized Action", "security", some adminId⟩)
    else
      let minLength := (parseIntJS (getSettingOr st "passwordMinLength" "6")).getD 0
      if username.length < 3 ∨ ¬ validEmailApprox email ∨
          (password.length : Int) < minLength ∨ ¬ (role = "user" ∨ role = "admin") then
        (actErr "Invalid user data.", st)
      else if st.users.any (fun u => u.username == username || u.email == email) then
        (actErr "Username or email already in use.", st)
      else
        let uid := nextUserId st
        let st1 := { st with users := st.users ++
          [{ id := uid, username := username, email := email,
             password_hash := hashPassword password, role := role, status := "active" }] }
        (actOk ("User '" ++ username ++ "' created successfully."),
         addLog st1 ⟨some adminId, ip, "User Creation", "admin", some uid⟩)

/-- `updateUserStatus(values)` (admin only). -/
def updateUserStatus (st : Store) (ip : String) (now : Int) (sessionId : Option String)
    (targetUserId : Int) (status : String) : ActionRes × Store :=
  match getUserFromSession st now sessionId with
  | none => (actErr "Authentication required.", st)
  | some (adminId, adminRole) =>
    if adminRole ≠ "admin" then
      (actErr "Permission denied.",
       addLog st ⟨some adminId, ip, "Unauthorized Action", "security", some adminId⟩)
    else if ¬ (status = "active" ∨ status = "inactive") then
      (actErr "Invalid data.", st)
    else if targetUserId = adminId ∧ status = "inactive" then
      (actErr "Administrators cannot deactivate their own account.", st)
    else
      match st.users.find? (fun u => u.id == targetUserId) with
      | none => (actErr "Target user not found.", st)
      | some targetUser =>
        let st1 := { st with users := st.users.map (fun u =>
          if u.id == targetUserId then { u with status := status } else u) }
        (actOk ("User '" ++ targetUser.username ++ "' has been " ++ status ++ "."),
         addLog st1 ⟨some adminId, ip,
           (if status = "active" then "User Status Activated" else "User Status Deactivated"),
           "admin", some targetUserId⟩)

/-- `resetUserPassword(values)` (admin only): rewrites the digest and revokes
every session of the target user. -/
def resetUserPassword (st : Store) (ip : String) (now : Int) (sessionId : Option String)
    (targetUserId : Int) (newPassword : String) : ActionRes × Store :=
  match getUserFromSession st now sessionId with
  | none => (actErr "Authentication required.", st)
  | some (adminId, adminRole) =>
    if adminRole ≠ "admin" then
      (actErr "Permission denied.",
       addLog st ⟨some adminId, ip, "Unauthorized Action", "security", some adminId⟩)
    else
      let minLength := (parseIntJS (getSettingOr st "passwordMinLength" "6")).getD 0
      if (newPassword.length : Int) < minLength then
        (actErr "Invalid data.", st)
      else
        match st.users.find? (fun u => u.id == targetUserId) with
        | none => (actErr "Target user not found.", st)
        | some targetUser =>
          let st1 := { st with users := st.users.map (fun u =>
            if u.id == targetUserId then { u with password_hash := hashPassword newPassword } else u) }
          let st2 := addLog st1 ⟨some adminId, ip, "Password Reset", "admin", some targetUserId⟩
          let remaining := st2.sessions.filter (fun s => !(s.user_id == targetUserId))
          let deletedCount := st2.sessions.length - remaining.length
          let st3 := { st2 with sessions := remaining }
          let st4 := if deletedCount > 0 then
              addLog st3 ⟨some adminId, ip, "Session Termination", "security", some targetUserId⟩
            else st3
          (actOk ("Password for user '" ++ targetUser.username ++ "' has been reset successfully."), st4)

/-- `updateUserProfile(values)` (admin only), with the self-demotion and
seed-admin (id 1) demotion guards. -/
def updateUserProfile (st : Store) (ip : String) (now : Int) (sessionId : Option String)
    (targetUserId : Int) (username? email? role? : Option String) : ActionRes × Store :=
  match getUserFromSession st now sessionId with
  | none => (actErr "Authentication required.", st)
  | some (adminId, adminRole) =>
    if adminRole ≠ "admin" then
      (actErr "Permission denied.",
       addLog st ⟨some adminId, ip, "Unauthorized Action", "security", some adminId⟩)
    else if username?.any (fun u => u.length < 3) ||
        email?.any (fun e => ! validEmailApprox e) ||
        role?.any (fun r => !(r == "user" || r == "admin")) then
      (actErr "Invalid data.", st)
    else if username? = none ∧ email? = none ∧ role? = none then
      (actErr "No changes provided.", st)
    else if targetUserId == adminId && role?.any (fun r => !(r == "admin")) then
      (actErr "Administrators cannot change their own role.", st)
    else if targetUserId == 1 && role?.any (fun r => !(r == "admin")) then
      (actErr "The initial administrator account's role cannot be changed.", st)
    else
      match st.users.find? (fun u => u.id == targetUserId) with
      | none => (actErr "Target user not found.", st)
      | some targetUser =>
        if username?.any (fun un => !(un == targetUser.username) &&
            st.users.any (fun o => o.username == un && o.id != targetUserId)) then
          (actErr "Username already in use.", st)
        else if email?.any (fun e => !(e == targetUser.email) &&
            st.users.any (fun o => o.email == e && o.id != targetUserId)) then
          (actErr "Email already in use.", st)
        else
          let st1 := { st with users := st.users.map (fun u =>
            if u.id == targetUserId then
              { u with username := username?.getD u.username,
                       email := email?.getD u.email,
                       role := role?.getD u.role }
            else u) }
          (actOk ("Profile for user '" ++ targetUser.username ++ "' updated successfully."),
           addLog st1 ⟨some adminId, ip, "Profile Update", "admin", some targetUserId⟩)

/-- `deleteUser(values)` (admin only): guards against self-deletion and
deletion of the seed admin (id 1); the transaction removes sessions and the
user row, and the schema's `ON DELETE SET NULL` nulls the user references in
`files` and `logs`. -/
def deleteUser (st : Store) (ip : String) (now : Int) (sessionId : Option String)
    (targetUserId : Int) : ActionRes × Store :=
  match getUserFromSession st now sessionId with
  | none => (actErr "Authentication required.", st)
  | some (adminId, adminRole) =>
    if adminRole ≠ "admin" then
      (actErr "Permission denied.",
       addLog st ⟨some adminId, ip, "Unauthorized Action", "security", some adminId⟩)
    else if targetUserId = adminId then
      (actErr "Administrators cannot delete their own account.", st)
    else if targetUserId = 1 then
      (actErr "The initial administrator account cannot be deleted.", st)
    else
      match st.users.find? (fun u => u.id == targetUserId) with
      | none => (actErr "Target user not found.", st)
      | some targetUser =>
        let st1 := { st with
          sessions := st.sessions.filter (fun s => !(s.user_id == targetUserId)),
          users := st.users.filter (fun u => !(u.id == targetUserId)),
          files := st.files.map (fun f =>
            if f.uploader_id == some targetUserId then { f with uploader_id := none } else f),
          logs := st.logs.map (fun l =>
            if l.user_id == some targetUserId then { l with user_id := none } else l) }
        (actOk ("User '" ++ targetUser.username ++ "' has been deleted."),
         addLog st1 ⟨some adminId, ip, "User Deletion", "admin", some targetUserId⟩)

/-- `updateOwnProfile(values)`: self-service email/password change. -/
def updateOwnProfile (st : Store) (ip : String) (now : Int) (sessionId : Option String)
    (email? currentPassword? newPassword? : Option String) : ActionRes × Store :=
  match getUserFromSession st now sessionId with
  | none => (actErr "Authentication required.", st)
  | some (userId, _) =>
    if email?.any (fun e => ! validEmailApprox e) then
      (actErr "Invalid data.", st)
    else
      let npEff : Option String :=
        match newPassword? with
        | some np => if np = "" then none else some np
        | none => none
      if email? = none ∧ npEff = none then (actErr "No changes provided.", st)
      else
        match st.users.find? (fun u => u.id == userId) with
        | none => (actErr "User not found.", st)
        | some user =>
          if email?.any (fun e => !(e == user.email) &&
              st.users.any (fun o => o.email == e && o.id != userId)) then
            (actErr "Email address already in use.", st)
          else
            let emailNew : Option String :=
              match email? with
              | some e => if e ≠ user.email then some e else none
              | none => none
            match npEff with
            | none =>
              match emailNew with
              | none => (actOk "No changes detected.", st)
              | some e =>
                let st1 := { st with users := st.users.map (fun u2 =>
                  if u2.id == userId then { u2 with email := e } else u2) }
                (actOk "Profile updated successfully.",
                 addLog st1 ⟨some userId, ip, "Profile Self-Update", "auth", some userId⟩)
            | some np =>
              if currentPassword?.getD "" = "" then
                (actErr "Current password is required to set a new password.", st)
              else
                match verifyPassword (currentPassword?.getD "") user.password_hash with
                | Except.error _ =>
                  (actErr "Failed to update profile due to a server error.",
                   addLog st ⟨some userId, ip, "Profile Self-Update Error", "system", some userId⟩)
                | Except.ok false =>
                  (actErr "Incorrect current password.",
                   addLog st ⟨some userId, ip, "Profile Update Failure", "security", some userId⟩)
                | Except.ok true =>
                  let minLength := (parseIntJS (getSettingOr st "passwordMinLength" "6")).getD 0
                  if (np.length : Int) < minLength then
                    (actErr ("New password must be at least " ++ toString minLength ++ " characters."), st)
                  else
                    let st1 := { st with users := st.users.map (fun u2 =>
                      if u2.id == userId then
                        { u2 with email := emailNew.getD u2.email,
                                  password_hash := hashPassword np }
                      else u2) }
                    let st2 := addLog st1 ⟨some userId, ip, "Profile Self-Update", "auth", some userId⟩
                    let curSid := sessionId.getD ""
                    let remaining := st2.sessions.filter (fun s =>
                      !(s.user_id == userId && !(s.session_id == curSid)))
                    let deletedCount := st2.sessions.length - remaining.length
                    let st3 := { st2 with sessions := remaining }
                    let st4 := if deletedCount > 0 then
                        addLog st3 ⟨some userId, ip, "Session Termination", "security", some userId⟩
                      else st3
                    (actOk "Profile updated successfully.", st4)

/-- One user-management request, carrying the caller's session cookie and the
request payload — the operations exposed by src/actions/users.ts that touch
the `users` table. -/
inductive UserOp where
  | register (ip : String) (now : Int) (sessionId : Option String)
      (username email password role : String)
  | setStatus (ip : String) (now : Int) (sessionId : Option String)
      (targetUserId : Int) (status : String)
  | resetPassword (ip : String) (now : Int) (sessionId : Option String)
      (targetUserId : Int) (newPassword : String)
  | updateProfile (ip : String) (now : Int) (sessionId : Option String)
      (targetUserId : Int) (username? email? role? : Option String)
  | deleteUserOp (ip : String) (now : Int) (sessionId : Option String)
      (targetUserId : Int)
  | updateOwn (ip : String) (now : Int) (sessionId : Option String)
      (email? currentPassword? newPassword? : Option String)

/-- Execute one user-management request against the store. -/
def runUserOp (op : UserOp) (st : Store) : Store :=
  match op with
  | .register ip now sid un em pw r => (registerUser st ip now sid un em pw r).2
  | .setStatus ip now sid t s => (updateUserStatus st ip now sid t s).2
  | .resetPassword ip now sid t np => (resetUserPassword st ip now sid t np).2
  | .updateProfile ip now sid t un em r => (updateUserProfile st ip now sid t un em r).2
  | .deleteUserOp ip now sid t => (deleteUser st ip now sid t).2
  | .updateOwn ip now sid em cp np => (updateOwnProfile st ip now sid em cp np).2

/-- Execute a sequence of user-management requests. -/
def runUserOps (ops : List UserOp) (st : Store) : Store :=
  ops.foldl (fun s op => runUserOp op s) st

/-- The specification's read-authorization condition for a file: public
visibility, ownership, or the admin role (§4.3 rules 3–5 restricted to
`read`). -/
def authorizedRead (st : Store) (uid : Int) (f : FileRec) : Prop :=
  f.visibility = "public" ∨ f.uploader_id = some uid ∨ getUserRole st uid = some "admin"

/-- The seed-admin invariant: a user row with id 1 and role admin exists. -/
def seedAdminIntact (st : Store) : Prop :=
  ∃ u ∈ st.users, u.id = 1 ∧ u.role = "admin"

/-- A concrete store used by witnesses and counterexamples: the seed admin
(id 1), an ordinary user bob (id 2) with a valid session `tok2`, an inactive
user carol (id 3), three files (a public one and a private one owned by the
admin, and bob's private file), and maintenance mode switched on. -/
def sampleStore : Store :=
  { users := [⟨1, "AdminUser", "admin@example.com", "adminhash", "admin", "active"⟩,
              ⟨2, "bob", "bob@example.com", "bobhash", "user", "active"⟩,
              ⟨3, "carol", "carol@example.com", "carolhash", "user", "inactive"⟩],
    sessions := [⟨"tokA", 1, 1000000, 0, "::1", "ua"⟩, ⟨"tok2", 2, 1000000, 0, "::1", "ua"⟩],
    files := [⟨1, "f1.txt", "text/plain", 5, some 1, "public", "uploads/f1.txt"⟩,
              ⟨2, "secret.txt", "text/plain", 5, some 1, "private", "uploads/secret.txt"⟩,
              ⟨3, "bob.txt", "text/plain", 5, some 2, "private", "uploads/bob.txt"⟩],
    logs := [],
    settings := [("maintenanceMode", "true")],
    disk := ["/srv/uploads/f1.txt", "/srv/uploads/secret.txt", "/srv/uploads/bob.txt"] }

/-! ## Helper lemmas -/

theorem find?_filter_not_none {α} (l : List α) (p : α → Bool) :
    (l.filter (fun x => !(p x))).find? p = none := by
  apply List.find?_eq_none.mpr
  intro x hx
  have h := List.mem_filter.mp hx
  simpa using h.2

theorem sessions_find?_after_delete (l : List Session) (tok : String) :
    (l.filter (fun s => !(s.session_id == tok))).find? (fun s => s.session_id == tok) = none :=
  find?_filter_not_none l _

theorem files_find?_after_delete (l : List FileRec) (fid : Int) :
    (l.filter (fun g => !(g.id == fid))).find? (fun f => f.id == fid) = none :=
  find?_filter_not_none l _

/-! ## Claim C4 -/

/-- **C4** (code bug): the claim says `verify(password, digest)` never throws
and treats a malformed digest as non-matching.  In the code,
`crypto.timingSafeEqual` raises a `RangeError` whenever the stored digest's
byte length differs from the 64 hex characters of the recomputed SHA-256
digest, so `verifyPassword("a", "abc")` — a digest that is certainly not the
hash of `"a"` — throws instead of returning false. -/
theorem c4_verifyPassword_throws_on_malformed_digest :
    verifyPassword "a" "abc" =
      Except.error "Input buffers must have the same byte length" ∧
    "abc" ≠ hashPassword "a" := by
  refine ⟨rfl, by decide⟩

/-! ## Claim C5 -/

/-- **C5**: once the clock is past a session's expiry, `verifySession`
returns absent and deletes the session row, and a later resolution of the
same token (at any time) also returns absent — the session is never
resurrected. -/
theorem c5_verifySession_lazy_expiry (st : Store) (tok : String) (now now2 : Int)
    (s : Session) (htok : tok ≠ "")
    (hfind : st.sessions.find? (fun r => r.session_id == tok) = some s)
    (hexp : s.expires_at < now) :
    (verifySession st now tok).1 = none ∧
    ((verifySession st now tok).2).sessions.find? (fun r => r.session_id == tok) = none ∧
    (verifySession (verifySession st now tok).2 now2 tok).1 = none := by
  have h1 : verifySession st now tok =
      (none, { st with sessions := st.sessions.filter (fun r => !(r.session_id == tok)) }) := by
    unfold verifySession
    simp only [if_neg htok, hfind, if_pos hexp]
  refine ⟨by rw [h1], ?_, ?_⟩
  · rw [h1]
    exact sessions_find?_after_delete _ _
  · rw [h1]
    unfold verifySession
    rw [if_neg htok, sessions_find?_after_delete]

/-- Witness for C5 at a concrete expired session. -/
theorem c5_verifySession_lazy_expiry_witness :
    (verifySession ⟨[], [⟨"tok", 7, 100, 0, "::1", "ua"⟩], [], [], [], []⟩ 200 "tok").1 = none ∧
    ((verifySession ⟨[], [⟨"tok", 7, 100, 0, "::1", "ua"⟩], [], [], [], []⟩ 200 "tok").2).sessions.find?
      (fun r => r.session_id == "tok") = none ∧
    (verifySession (verifySession ⟨[], [⟨"tok", 7, 100, 0, "::1", "ua"⟩], [], [], [], []⟩ 200 "tok").2
      300 "tok").1 = none :=
  c5_verifySession_lazy_expiry _ "tok" 200 300 ⟨"tok", 7, 100, 0, "::1", "ua"⟩
    (by decide) (by decide) (by decide)

/-! ## Claim C7 -/

/-- **C7**: an authenticated upload whose byte size exceeds the
`fileSizeLimitMB` setting fails with the TooLarge error and leaves the store
untouched — no metadata row is created and nothing is written to disk, the
size check preceding both. -/
theorem c7_upload_too_large (st : Store) (cwd ip : String) (now : Int)
    (sid : Option String) (uid : Int) (file : FileInput) (vis suffix : String)
    (m : Int)
    (hauth : getUserIdFromSession st now sid = some uid)
    (hm : parseIntJS (getSetting st "fileSizeLimitMB" "10") = some m)
    (hbig : (file.size : Int) > m * 1048576) :
    uploadFile st cwd ip now sid (some file) vis suffix =
      (actErr ("File size exceeds the limit of " ++ toString m ++ " MB."), st) := by
  unfold uploadFile
  rw [hauth]
  simp only [hm, jsNumStr]
  rw [if_pos (decide_eq_true hbig)]

/-- Witness for C7: a 12 MiB upload against the default 10 MB limit. -/
theorem c7_upload_too_large_witness :
    uploadFile ⟨[], [⟨"tok", 7, 100, 0, "::1", "ua"⟩], [], [], [("fileSizeLimitMB", "10")], []⟩
        "/srv" "::1" 50 (some "tok") (some ⟨"big.bin", "application/octet-stream", 12582912⟩)
        "private" "ab12" =
      (actErr "File size exceeds the limit of 10 MB.", ⟨[], [⟨"tok", 7, 100, 0, "::1", "ua"⟩],
        [], [], [("fileSizeLimitMB", "10")], []⟩) :=
  c7_upload_too_large _ "/srv" "::1" 50 (some "tok") 7
    ⟨"big.bin", "application/octet-stream", 12582912⟩ "private" "ab12" 10
    (by decide) (by decide) (by decide)

/-! ## Claim C2 -/

theorem authorizedRead_iff_not_denied (st : Store) (uid : Int) (f : FileRec)
    (hvis : f.visibility = "private" ∨ f.visibility = "public") :
    authorizedRead st uid f ↔
      ¬ (f.visibility = "private" ∧ f.uploader_id ≠ some uid ∧
         getUserRole st uid ≠ some "admin") := by
  unfold authorizedRead
  rcases hvis with h | h <;> rw [h] <;> simp <;> tauto

/-- **C2**: for an authenticated actor and an existing file (metadata
present, bytes on disk, two-valued visibility as the schema documents), a
byte-server read — both the `GET` route (download or preview) and the
`getDownloadFileInfo` action — succeeds iff the file is public, owned by the
actor, or the actor's role is admin; otherwise the request is denied with a
Forbidden-class error and a `security`-category log entry is appended. -/
theorem c2_read_iff_public_owner_admin (st : Store) (cwd ip : String) (now : Int)
    (sid : Option String) (uid : Int) (fp : List String) (isPreview : Bool)
    (rec : FileRec) (fid : Int) (dfile : FileRec)
    (hauth : getUserIdFromSession st now sid = some uid)
    (hpath : jsStartsWith (pathResolve cwd (pathNormalize (pathJoin ("uploads" :: fp))))
      (pathResolve cwd "uploads") = true)
    (hrec : st.files.find? (fun f => f.path == pathJoin ("uploads" :: fp)) = some rec)
    (hvis : rec.visibility = "private" ∨ rec.visibility = "public")
    (hdisk : st.disk.contains (pathResolve cwd rec.path) = true)
    (hdrec : st.files.find? (fun f => f.id == fid) = some dfile)
    (hdvis : dfile.visibility = "private" ∨ dfile.visibility = "public")
    (hddisk : st.disk.contains (pathResolve cwd dfile.path) = true) :
    ((routeGET st cwd ip now sid fp isPreview).1.status = 200 ↔ authorizedRead st uid rec) ∧
    (¬ authorizedRead st uid rec →
      (routeGET st cwd ip now sid fp isPreview).1.status = 403 ∧
      (routeGET st cwd ip now sid fp isPreview).2.logs =
        st.logs ++ [⟨some uid, ip, "File Access Denied", "security", some rec.id⟩]) ∧
    ((getDownloadFileInfo st cwd ip now sid fid).1.1.success = true ↔
      authorizedRead st uid dfile) ∧
    (¬ authorizedRead st uid dfile →
      (getDownloadFileInfo st cwd ip now sid fid).1.1 = actErr "Access denied to this file." ∧
      (getDownloadFileInfo st cwd ip now sid fid).2.logs =
        st.logs ++ [⟨some uid, ip, "File Access Denied", "security", some fid⟩]) := by
  have hroute : routeGET st cwd ip now sid fp isPreview =
      if rec.visibility = "private" ∧ rec.uploader_id ≠ some uid ∧
          getUserRole st uid ≠ some "admin" then
        (⟨403⟩, addLog st ⟨some uid, ip, "File Access Denied", "security", some rec.id⟩)
      else
        (⟨200⟩, addLog st ⟨some uid, ip,
          if isPreview then "File Preview" else "File Download", "file", some rec.id⟩) := by
    unfold routeGET
    simp only [hauth, hpath, hrec, hdisk, not_true, if_false, ite_false, ite_true,
      Bool.not_eq_true, if_neg, not_false_iff]
  have hdl : getDownloadFileInfo st cwd ip now sid fid =
      if dfile.visibility = "private" ∧ dfile.uploader_id ≠ some uid ∧
          getUserRole st uid ≠ some "admin" then
        ((actErr "Access denied to this file.", none),
         addLog st ⟨some uid, ip, "File Access Denied", "security", some fid⟩)
      else
        (({ success := true, error := none, message := none },
          some ⟨dfile.name, dfile.path, dfile.type⟩),
         addLog st ⟨some uid, ip, "File Download", "file", some fid⟩) := by
    unfold getDownloadFileInfo
    simp only [hauth, hdrec]
    split
    · rfl
    · simp [hddisk]
  have hiffR := authorizedRead_iff_not_denied st uid rec hvis
  have hiffD := authorizedRead_iff_not_denied st uid dfile hdvis
  refine ⟨?_, ?_, ?_, ?_⟩
  · rw [hroute]
    by_cases hA : authorizedRead st uid rec
    · rw [if_neg (hiffR.mp hA)]
      simp [hA]
    · rw [if_pos (not_not.mp (hiffR.not.mp hA))]
      simp [hA]
  · intro hA
    rw [hroute, if_pos (not_not.mp (hiffR.not.mp hA))]
    exact ⟨rfl, by simp [addLog]⟩
  · rw [hdl]
    by_cases hB : authorizedRead st uid dfile
    · rw [if_neg (hiffD.mp hB)]
      simp [hB]
    · rw [if_pos (not_not.mp (hiffD.not.mp hB))]
      simp [hB, actErr]
  · intro hB
    rw [hdl, if_pos (not_not.mp (hiffD.not.mp hB))]
    exact ⟨rfl, by simp [addLog]⟩

/-! ## Claim C8 -/

theorem find?_map_upd_vis (l : List FileRec) (fid : Int) (v : String) (f : FileRec)
    (h : l.find? (fun g => g.id == fid) = some f) :
    (l.map (fun g => if g.id == fid then { g with visibility := v } else g)).find?
      (fun g => g.id == fid) = some { f with visibility := v } := by
  induction l with
  | nil => simp at h
  | cons a t ih =>
    rw [List.find?_cons] at h
    cases hab : (a.id == fid) with
    | true =>
      rw [hab] at h
      have h2 : a = f := by simpa using h
      subst h2
      simp only [List.map_cons, List.find?_cons]
      rw [if_pos hab]
      simp [hab]
    | false =>
      rw [hab] at h
      simp only [List.map_cons, List.find?_cons]
      rw [if_neg (by simp [hab]), hab]
      exact ih h

/-- **C8**: for an authorized actor (owner or admin) and an existing file,
toggling visibility to the value it already holds succeeds without changing
any state and without writing a log entry, while toggling twice
(private→public→private) restores the original file record and appends
exactly two log entries. -/
theorem c8_toggle_noop_and_double (st : Store) (ip : String) (now : Int)
    (sid : Option String) (uid : Int) (fid : Int) (f : FileRec)
    (hauth : getUserIdFromSession st now sid = some uid)
    (hfind : st.files.find? (fun g => g.id == fid) = some f)
    (hperm : f.uploader_id = some uid ∨ getUserRole st uid = some "admin") :
    toggleFileVisibility st ip now sid fid f.visibility =
      (actOk "Visibility already set.", st) ∧
    (f.visibility = "private" →
      (toggleFileVisibility (toggleFileVisibility st ip now sid fid "public").2
          ip now sid fid "private").2.files.find? (fun g => g.id == fid) = some f ∧
      (toggleFileVisibility (toggleFileVisibility st ip now sid fid "public").2
          ip now sid fid "private").2.logs.length = st.logs.length + 2 ∧
      (toggleFileVisibility st ip now sid fid "public").1.success = true ∧
      (toggleFileVisibility (toggleFileVisibility st ip now sid fid "public").2
          ip now sid fid "private").1.success = true) := by
  have hnd : ¬ (f.uploader_id ≠ some uid ∧ getUserRole st uid ≠ some "admin") := by
    rcases hperm with h | h <;> simp [h]
  constructor
  · unfold toggleFileVisibility
    simp only [hauth, hfind]
    rw [if_neg hnd]
    simp
  · intro hpriv
    have h1 : toggleFileVisibility st ip now sid fid "public" =
        (actOk "File visibility changed to public.",
         addLog { st with files := st.files.map (fun g =>
             if g.id == fid then { g with visibility := "public" } else g) }
           ⟨some uid, ip, "File Visibility Change", "file", some fid⟩) := by
      unfold toggleFileVisibility
      simp only [hauth, hfind]
      rw [if_neg hnd, if_neg (by simp [hpriv])]
      rfl
    rw [h1]
    set st1 := addLog { st with files := st.files.map (fun g =>
        if g.id == fid then { g with visibility := "public" } else g) }
      ⟨some uid, ip, "File Visibility Change", "file", some fid⟩ with hst1
    have hauth1 : getUserIdFromSession st1 now sid = some uid := hauth
    have hfind1 : st1.files.find? (fun g => g.id == fid) =
        some { f with visibility := "public" } := find?_map_upd_vis st.files fid "public" f hfind
    have hnd1 : ¬ (({ f with visibility := "public" } : FileRec).uploader_id ≠ some uid ∧
        getUserRole st1 uid ≠ some "admin") := hnd
    have h2 : toggleFileVisibility st1 ip now sid fid "private" =
        (actOk "File visibility changed to private.",
         addLog { st1 with files := st1.files.map (fun g =>
             if g.id == fid then { g with visibility := "private" } else g) }
           ⟨some uid, ip, "File Visibility Change", "file", some fid⟩) := by
      unfold toggleFileVisibility
      simp only [hauth1, hfind1]
      rw [if_neg hnd1, if_neg (by simp)]
      rfl
    rw [h2]
    have hfind2 := find?_map_upd_vis st1.files fid "private" _ hfind1
    refine ⟨?_, by simp [addLog, hst1], rfl, rfl⟩
    simp only [addLog]
    rw [hfind2]
    obtain ⟨i, n, ty, sz, up, vis, pa⟩ := f
    simp at hpriv
    subst hpriv
    rfl

/-- Witness for C2: bob reads the public file via the route (200) and is
denied the admin's private file by the download action, with a security log. -/
theorem c2_read_iff_public_owner_admin_witness :
    (routeGET sampleStore "/srv" "::1" 500 (some "tok2") ["f1.txt"] false).1.status = 200 ∧
    (getDownloadFileInfo sampleStore "/srv" "::1" 500 (some "tok2") 2).1.1 =
      actErr "Access denied to this file." ∧
    (getDownloadFileInfo sampleStore "/srv" "::1" 500 (some "tok2") 2).2.logs =
      sampleStore.logs ++ [⟨some 2, "::1", "File Access Denied", "security", some 2⟩] := by
  have h := c2_read_iff_public_owner_admin sampleStore "/srv" "::1" 500 (some "tok2") 2
      ["f1.txt"] false ⟨1, "f1.txt", "text/plain", 5, some 1, "public", "uploads/f1.txt"⟩
      2 ⟨2, "secret.txt", "text/plain", 5, some 1, "private", "uploads/secret.txt"⟩
      (by decide) (by decide) (by decide) (by decide) (by decide) (by decide)
      (by decide) (by decide)
  have hden : ¬ authorizedRead sampleStore 2
      ⟨2, "secret.txt", "text/plain", 5, some 1, "private", "uploads/secret.txt"⟩ := by
    unfold authorizedRead getUserRole
    decide
  exact ⟨h.1.mpr (Or.inl rfl), (h.2.2.2 hden).1, (h.2.2.2 hden).2⟩

/-- Witness for C8: bob toggles his own private file. -/
theorem c8_toggle_noop_and_double_witness :
    toggleFileVisibility sampleStore "::1" 500 (some "tok2") 3 "private" =
      (actOk "Visibility already set.", sampleStore) ∧
    (toggleFileVisibility (toggleFileVisibility sampleStore "::1" 500 (some "tok2") 3 "public").2
        "::1" 500 (some "tok2") 3 "private").2.logs.length = sampleStore.logs.length + 2 := by
  have h := c8_toggle_noop_and_double sampleStore "::1" 500 (some "tok2") 2 3
      ⟨3, "bob.txt", "text/plain", 5, some 2, "private", "uploads/bob.txt"⟩
      (by decide) (by decide) (Or.inl (by decide))
  exact ⟨h.1, (h.2 rfl).2.1⟩

/-! ## Claim C3 -/

/-- **C3 counterexample**: in `deleteFile` the audit-ledger `INSERT` sits
inside the outer `try`, so when it throws after the DB transaction has
committed, the `catch` returns `{ success: false }` — the outcome of the
operation changes even though the deletion itself stands. -/
theorem c3_cex_audit_failure_changes_outcome :
    (deleteFile sampleStore "/srv" "::1" 500 (some "tok2") 3 true).1 =
      actErr "Failed to delete file." ∧
    (deleteFile sampleStore "/srv" "::1" 500 (some "tok2") 3 false).1 =
      actOk "File deleted successfully." ∧
    (deleteFile sampleStore "/srv" "::1" 500 (some "tok2") 3 true).2.files.find?
      (fun g => g.id == 3) = none := by
  refine ⟨by decide, by decide, by decide⟩

/-- **C3 (amended)**: a failure of the audit-ledger write never rolls back
the primary state change of `deleteFile` — the metadata row stays deleted and
the unlink stands — but it does change the user-visible outcome: the failed
`INSERT` reaches the outer `catch`, which logs to the operational channel and
returns the generic deletion failure instead of success. -/
theorem c3_audit_failure_never_rolls_back (st : Store) (cwd ip : String) (now : Int)
    (sid : Option String) (uid fid : Int) (f : FileRec) (b : Bool)
    (hauth : getUserIdFromSession st now sid = some uid)
    (hfind : st.files.find? (fun g => g.id == fid) = some f)
    (hperm : f.uploader_id = some uid ∨ getUserRole st uid = some "admin") :
    (deleteFile st cwd ip now sid fid b).2.files.find? (fun g => g.id == fid) = none ∧
    (deleteFile st cwd ip now sid fid b).2.files =
      st.files.filter (fun g => !(g.id == fid)) ∧
    (b = true → (deleteFile st cwd ip now sid fid b).1 = actErr "Failed to delete file.") ∧
    (b = false → (deleteFile st cwd ip now sid fid b).1 = actOk "File deleted successfully.") := by
  have hnd : ¬ (f.uploader_id ≠ some uid ∧ getUserRole st uid ≠ some "admin") := by
    rcases hperm with h | h <;> simp [h]
  have hb : deleteFile st cwd ip now sid fid b =
      (if b then
        (actErr "Failed to delete file.",
         addLog { st with files := st.files.filter (fun g => !(g.id == fid)),
                          disk := st.disk.filter (fun p => p ≠ pathResolve cwd f.path) }
           ⟨some uid, ip, "File Deletion Error", "system", some fid⟩)
      else
        (actOk "File deleted successfully.",
         addLog { st with files := st.files.filter (fun g => !(g.id == fid)),
                          disk := st.disk.filter (fun p => p ≠ pathResolve cwd f.path) }
           ⟨some uid, ip, "File Deletion", "file", some fid⟩)) := by
    unfold deleteFile
    simp only [hauth, hfind]
    rw [if_neg hnd]
  refine ⟨?_, ?_, ?_, ?_⟩
  · rw [hb]
    cases b <;> simp [addLog] <;> exact files_find?_after_delete _ _
  · rw [hb]
    cases b <;> simp [addLog]
  · intro hbt
    subst hbt
    rw [hb]
    rfl
  · intro hbf
    subst hbf
    rw [hb]
    rfl

/-- Witness for the amended C3 theorem at a concrete failing audit write. -/
theorem c3_audit_failure_never_rolls_back_witness :
    (deleteFile sampleStore "/srv" "::1" 500 (some "tok2") 3 true).2.files.find?
      (fun g => g.id == 3) = none ∧
    (deleteFile sampleStore "/srv" "::1" 500 (some "tok2") 3 true).1 =
      actErr "Failed to delete file." := by
  have h := c3_audit_failure_never_rolls_back sampleStore "/srv" "::1" 500 (some "tok2") 2 3
      ⟨3, "bob.txt", "text/plain", 5, some 2, "private", "uploads/bob.txt"⟩ true
      (by decide) (by decide) (Or.inl (by decide))
  exact ⟨h.1, h.2.2.1 rfl⟩

/-! ## Claim C6 -/

/-- **C6 counterexample**: with maintenance mode enabled, the non-admin bob —
holding a valid session — still uploads successfully: `uploadFile` never
consults the `maintenanceMode` setting, so the claim that every non-admin
action is denied under maintenance is false. -/
theorem c6_cex_upload_allowed_during_maintenance :
    getSettingOpt sampleStore "maintenanceMode" = some "true" ∧
    getUserRole sampleStore 2 = some "user" ∧
    (uploadFile sampleStore "/srv" "::1" 500 (some "tok2")
      (some ⟨"a.txt", "text/plain", 5⟩) "private" "ab12").1.success = true := by
  refine ⟨by decide, by decide, by decide⟩

/-- **C6 (amended)**: the `maintenanceMode` setting gates only `loginUser`:
when maintenance is on and the named account is not an admin, login never
succeeds; but operations carried by an existing valid session — here upload,
with its size and extension checks passing — proceed for non-admin actors,
because none of the file actions read the setting. -/
theorem c6_maintenance_blocks_only_login (st : Store) (ip ua tok cwd vis suffix : String)
    (now : Int) (un pw : String) (u : User) (sid : Option String) (uid : Int)
    (file : FileInput) (m : Int)
    (hmaint : getSettingOpt st "maintenanceMode" = some "true")
    (hu : st.users.find? (fun x => x.username == un) = some u)
    (hrole : u.role ≠ "admin")
    (hauth : getUserIdFromSession st now sid = some uid)
    (hnonadmin : getUserRole st uid ≠ some "admin")
    (hm : parseIntJS (getSetting st "fileSizeLimitMB" "10") = some m)
    (hsize : ¬ ((file.size : Int) > m * 1048576))
    (hext : allowedExtensionsOf st = []) :
    (loginUser st ip ua tok now un pw).1.success = false ∧
    (uploadFile st cwd ip now sid (some file) vis suffix).1.success = true := by
  constructor
  · unfold loginUser
    split
    · rfl
    · simp only [hu]
      split
      · rfl
      · rename_i hactive
        cases hv : verifyPassword pw u.password_hash with
        | error e => simp [hv]
        | ok b =>
          cases b with
          | false => simp [hv]
          | true =>
            simp only [hv]
            rw [if_pos ⟨hmaint, hrole⟩]
  · unfold uploadFile
    rw [hauth]
    simp only [hm, hext]
    rw [if_neg (by simpa using hsize), if_neg (by simp)]
    rfl

/-- Witness for the amended C6 theorem: bob in the sample store. -/
theorem c6_maintenance_blocks_only_login_witness :
    (loginUser sampleStore "::1" "ua" "t" 500 "bob" "pw").1.success = false ∧
    (uploadFile sampleStore "/srv" "::1" 500 (some "tok2")
      (some ⟨"a.txt", "text/plain", 5⟩) "private" "ab12").1.success = true := by
  have h := c6_maintenance_blocks_only_login sampleStore "::1" "ua" "t" "/srv" "private" "ab12"
      500 "bob" "pw" ⟨2, "bob", "bob@example.com", "bobhash", "user", "active"⟩
      (some "tok2") 2 ⟨"a.txt", "text/plain", 5⟩ 10
      (by decide) (by decide) (by decide) (by decide) (by decide) (by decide)
      (by decide) (by decide)
  exact h

/-! ## Claim C10 -/

/-- **C10 counterexample**: two runs that differ only in the password
argument do not always produce identical results for an inactive account —
the empty password fails the zod input validation before the status check,
returning `Invalid input.` instead of `Account is inactive.`. -/
theorem c10_cex_empty_password_differs :
    (loginUser sampleStore "::1" "ua" "t" 500 "carol" "").1.error = some "Invalid input." ∧
    (loginUser sampleStore "::1" "ua" "t" 500 "carol" "x").1.error = some "Account is inactive." ∧
    (loginUser sampleStore "::1" "ua" "t" 500 "carol" "").1 ≠
      (loginUser sampleStore "::1" "ua" "t" 500 "carol" "x").1 := by
  refine ⟨by decide, by decide, by decide⟩

/-- **C10 (amended)**: for passwords accepted by the input validation
(non-empty), `loginUser` on an account whose status is not active returns the
`Account is inactive.` error and appends the same `auth` log entry,
independently of the password — the status check precedes password
verification, so two such runs are identical. -/
theorem c10_inactive_independent_of_password (st : Store) (ip ua tok : String)
    (now : Int) (un p1 p2 : String) (u : User)
    (hun : un ≠ "") (hp1 : p1 ≠ "") (hp2 : p2 ≠ "")
    (hu : st.users.find? (fun x => x.username == un) = some u)
    (hstatus : u.status ≠ "active") :
    loginUser st ip ua tok now un p1 = loginUser st ip ua tok now un p2 ∧
    (loginUser st ip ua tok now un p1).1 = ⟨false, some "Account is inactive.", none⟩ ∧
    (loginUser st ip ua tok now un p1).2 =
      addLog st ⟨some u.id, ip, "Login Failure", "auth", some u.id⟩ := by
  have key : ∀ p, p ≠ "" → loginUser st ip ua tok now un p =
      (⟨false, some "Account is inactive.", none⟩,
       addLog st ⟨some u.id, ip, "Login Failure", "auth", some u.id⟩) := by
    intro p hp
    unfold loginUser
    rw [if_neg (by simp [hun, hp])]
    simp only [hu]
    rw [if_pos hstatus]
  rw [key p1 hp1, key p2 hp2]
  exact ⟨rfl, rfl, rfl⟩

/-- Witness for the amended C10 theorem: the inactive carol. -/
theorem c10_inactive_independent_of_password_witness :
    loginUser sampleStore "::1" "ua" "t" 500 "carol" "x" =
      loginUser sampleStore "::1" "ua" "t" 500 "carol" "y" ∧
    (loginUser sampleStore "::1" "ua" "t" 500 "carol" "x").1 =
      ⟨false, some "Account is inactive.", none⟩ ∧
    (loginUser sampleStore "::1" "ua" "t" 500 "carol" "x").2 =
      addLog sampleStore ⟨some 3, "::1", "Login Failure", "auth", some 3⟩ := by
  have h := c10_inactive_independent_of_password sampleStore "::1" "ua" "t" 500
      "carol" "x" "y" ⟨3, "carol", "carol@example.com", "carolhash", "user", "inactive"⟩
      (by decide) (by decide) (by decide) (by decide) (by decide)
  exact h

/-! ## Claim C1 -/

/-- **C1** (code bug): the route's traversal check compares resolved-path
strings with `startsWith` and no trailing separator, so the request segments
`["..", "uploadsEvil", "secret.txt"]` — whose reconstructed path resolves to
`/srv/uploadsEvil/secret.txt`, outside the `/srv/uploads` root — pass the
check (the string does start with `/srv/uploads`).  Instead of the claimed
403 with a `security` log written before any metadata access, the handler
proceeds to the metadata lookup and answers 404 with a `file`-category log. -/
theorem c1_cex_traversal_startswith_bypass :
    isUnderDir (pathResolve "/srv" "uploads")
      (pathResolve "/srv" (pathNormalize (pathJoin
        ("uploads" :: ["..", "uploadsEvil", "secret.txt"])))) = false ∧
    jsStartsWith (pathResolve "/srv" (pathNormalize (pathJoin
        ("uploads" :: ["..", "uploadsEvil", "secret.txt"]))))
      (pathResolve "/srv" "uploads") = true ∧
    (routeGET sampleStore "/srv" "::1" 500 (some "tok2")
      ["..", "uploadsEvil", "secret.txt"] false).1.status = 404 ∧
    (routeGET sampleStore "/srv" "::1" 500 (some "tok2")
      ["..", "uploadsEvil", "secret.txt"] false).2.logs =
      [⟨some 2, "::1", "File Access Error", "file", none⟩] := by
  refine ⟨by decide, by decide, by decide, by decide⟩

/-! ## Claim C9 -/

theorem seedEx_append (l xs : List User)
    (h : ∃ u ∈ l, u.id = 1 ∧ u.role = "admin") :
    ∃ u ∈ l ++ xs, u.id = 1 ∧ u.role = "admin" := by
  obtain ⟨u, hu, h1, h2⟩ := h
  exact ⟨u, List.mem_append_left _ hu, h1, h2⟩

theorem seedEx_map (l : List User) (g : User → User)
    (hg : ∀ u, u.id = 1 → u.role = "admin" → (g u).id = 1 ∧ (g u).role = "admin")
    (h : ∃ u ∈ l, u.id = 1 ∧ u.role = "admin") :
    ∃ u ∈ l.map g, u.id = 1 ∧ u.role = "admin" := by
  obtain ⟨u, hu, h1, h2⟩ := h
  exact ⟨g u, List.mem_map_of_mem g hu, (hg u h1 h2).1, (hg u h1 h2).2⟩

theorem seedEx_filter (l : List User) (t : Int) (ht : ¬ t = 1)
    (h : ∃ u ∈ l, u.id = 1 ∧ u.role = "admin") :
    ∃ u ∈ l.filter (fun u => !(u.id == t)), u.id = 1 ∧ u.role = "admin" := by
  obtain ⟨u, hu, h1, h2⟩ := h
  refine ⟨u, List.mem_filter.mpr ⟨hu, ?_⟩, h1, h2⟩
  simp [h1]
  omega

theorem registerUser_preserves_seed (st : Store) (ip : String) (now : Int)
    (sid : Option String) (un em pw r : String)
    (h : seedAdminIntact st) :
    seedAdminIntact (registerUser st ip now sid un em pw r).2 := by
  unfold registerUser
  repeat' split
  all_goals (try (simp only []))
  repeat' split
  all_goals (try (simp only []))
  repeat' split
  all_goals first
    | exact h
    | exact seedEx_append _ _ h

theorem updateUserStatus_preserves_seed (st : Store) (ip : String) (now : Int)
    (sid : Option String) (t : Int) (s : String)
    (h : seedAdminIntact st) :
    seedAdminIntact (updateUserStatus st ip now sid t s).2 := by
  unfold updateUserStatus
  repeat' split
  all_goals (try (simp only []))
  repeat' split
  all_goals (try (simp only []))
  repeat' split
  all_goals first
    | exact h
    | (refine seedEx_map _ _ ?_ h
       intro u h1 h2
       split
       · exact ⟨h1, h2⟩
       · exact ⟨h1, h2⟩)

theorem resetUserPassword_preserves_seed (st : Store) (ip : String) (now : Int)
    (sid : Option String) (t : Int) (np : String)
    (h : seedAdminIntact st) :
    seedAdminIntact (resetUserPassword st ip now sid t np).2 := by
  unfold resetUserPassword
  repeat' split
  all_goals (try (simp only []))
  repeat' split
  all_goals (try (simp only []))
  repeat' split
  all_goals first
    | exact h
    | (refine seedEx_map _ _ ?_ h
       intro u h1 h2
       split
       · exact ⟨h1, h2⟩
       · exact ⟨h1, h2⟩)

theorem updateUserProfile_preserves_seed (st : Store) (ip : String) (now : Int)
    (sid : Option String) (t : Int) (un? em? r? : Option String)
    (h : seedAdminIntact st) :
    seedAdminIntact (updateUserProfile st ip now sid t un? em? r?).2 := by
  unfold updateUserProfile
  repeat' split
  all_goals (try (simp only []))
  repeat' split
  all_goals (try (simp only []))
  repeat' split
  all_goals first
    | exact h
    | (refine seedEx_map _ _ ?_ h
       intro u h1 h2
       split
       · rename_i hct
         have ht1 : t = 1 := by
           have hx : u.id = t := by simpa using hct
           omega
         subst ht1
         refine ⟨h1, ?_⟩
         have hguard : ¬ ((((1 : Int) == (1 : Int)) &&
             r?.any (fun rr => !(rr == "admin"))) = true) := by assumption
         cases hr? : r? with
         | none => simpa using h2
         | some rv =>
           have hrv : rv = "admin" := by
             by_contra hno
             exact hguard (by simp [hr?, hno])
           simp [hr?, hrv]
       · exact ⟨h1, h2⟩)

theorem deleteUser_preserves_seed (st : Store) (ip : String) (now : Int)
    (sid : Option String) (t : Int)
    (h : seedAdminIntact st) :
    seedAdminIntact (deleteUser st ip now sid t).2 := by
  unfold deleteUser
  repeat' split
  all_goals (try (simp only []))
  repeat' split
  all_goals (try (simp only []))
  repeat' split
  all_goals first
    | exact h
    | exact seedEx_filter _ _ (by assumption) h

seal verifyPassword hashPassword sha256 timingSafeEqual utf8Encode bytesToHex parseIntJS

set_option maxHeartbeats 1600000 in
theorem updateOwnProfile_preserves_seed (st : Store) (ip : String) (now : Int)
    (sid : Option String) (em? cp? np? : Option String)
    (h : seedAdminIntact st) :
    seedAdminIntact (updateOwnProfile st ip now sid em? cp? np?).2 := by
  unfold updateOwnProfile
  repeat' split
  all_goals (try (simp only []))
  repeat' split
  all_goals (try (simp only []))
  repeat' split
  all_goals first
    | exact h
    | (refine seedEx_map _ _ ?_ h
       intro u h1 h2
       split
       · exact ⟨h1, h2⟩
       · exact ⟨h1, h2⟩)

unseal verifyPassword hashPassword sha256 timingSafeEqual utf8Encode bytesToHex parseIntJS

theorem runUserOp_preserves_seed (op : UserOp) (st : Store)
    (h : seedAdminIntact st) : seedAdminIntact (runUserOp op st) := by
  cases op with
  | register ip now sid un em pw r => exact registerUser_preserves_seed st ip now sid un em pw r h
  | setStatus ip now sid t s => exact updateUserStatus_preserves_seed st ip now sid t s h
  | resetPassword ip now sid t np => exact resetUserPassword_preserves_seed st ip now sid t np h
  | updateProfile ip now sid t un em r => exact updateUserProfile_preserves_seed st ip now sid t un em r h
  | deleteUserOp ip now sid t => exact deleteUser_preserves_seed st ip now sid t h
  | updateOwn ip now sid em cp np => exact updateOwnProfile_preserves_seed st ip now sid em cp np h

/-- **C9**: no sequence of user-management operations can delete or demote
the seed admin (id 1) — the invariant "a user with id 1 and role admin
exists" is preserved by every operation, so at least one admin account always
remains — and, for any authenticated caller, `deleteUser` fails on the
caller's own id and on the seed admin's id, while `updateUserProfile` rejects
any role change away from admin for those two targets. -/
theorem c9_seed_admin_never_deleted_or_demoted (st : Store) (ops : List UserOp)
    (ip : String) (now : Int) (sid : Option String)
    (callerId : Int) (callerRole : String) (un em : Option String) (r : String)
    (hseed : seedAdminIntact st)
    (hcaller : getUserFromSession st now sid = some (callerId, callerRole))
    (hr : r ≠ "admin") :
    seedAdminIntact (runUserOps ops st) ∧
    (deleteUser st ip now sid callerId).1.success = false ∧
    (deleteUser st ip now sid 1).1.success = false ∧
    (updateUserProfile st ip now sid callerId un em (some r)).1.success = false ∧
    (updateUserProfile st ip now sid 1 un em (some r)).1.success = false := by
  have hinv : ∀ (s : Store), seedAdminIntact s → seedAdminIntact (runUserOps ops s) := by
    induction ops with
    | nil => exact fun s hs => hs
    | cons op rest ih => exact fun s hs => ih _ (runUserOp_preserves_seed op s hs)
  refine ⟨hinv st hseed, ?_, ?_, ?_, ?_⟩
  · unfold deleteUser
    simp only [hcaller]
    repeat' split
    all_goals first
      | rfl
      | exact absurd rfl (by assumption)
      | exact absurd trivial (by assumption)
  · unfold deleteUser
    simp only [hcaller]
    repeat' split
    all_goals first
      | rfl
      | exact absurd rfl (by assumption)
      | exact absurd trivial (by assumption)
  · unfold updateUserProfile
    simp only [hcaller]
    repeat' split
    all_goals first
      | rfl
      | (exfalso
         have hx : Option.any (fun rr => !(rr == "admin")) (some r) = true := by simp [hr]
         simp_all)
  · unfold updateUserProfile
    simp only [hcaller]
    repeat' split
    all_goals first
      | rfl
      | (exfalso
         have hx : Option.any (fun rr => !(rr == "admin")) (some r) = true := by simp [hr]
         simp_all)

/-- Witness for C9: the seeded sample store, the admin as caller, and a
sample operation sequence (deleting bob, then trying to demote the seed). -/
theorem c9_seed_admin_never_deleted_or_demoted_witness :
    seedAdminIntact (runUserOps
      [UserOp.deleteUserOp "::1" 500 (some "tokA") 2,
       UserOp.updateProfile "::1" 500 (some "tokA") 1 none none (some "user")]
      sampleStore) ∧
    (deleteUser sampleStore "::1" 500 (some "tokA") 1).1.success = false ∧
    (deleteUser sampleStore "::1" 500 (some "tokA") 1).1.success = false ∧
    (updateUserProfile sampleStore "::1" 500 (some "tokA") 1 none none
      (some "user")).1.success = false ∧
    (updateUserProfile sampleStore "::1" 500 (some "tokA") 1 none none
      (some "user")).1.success = false := by
  have h := c9_seed_admin_never_deleted_or_demoted sampleStore
      [UserOp.deleteUserOp "::1" 500 (some "tokA") 2,
       UserOp.updateProfile "::1" 500 (some "tokA") 1 none none (some "user")]
      "::1" 500 (some "tokA") 1 "admin" none none "user"
      ⟨⟨1, "AdminUser", "admin@example.com", "adminhash", "admin", "active"⟩,
        by decide, rfl, rfl⟩
      (by decide) (by decide)
  exact h

end Upchat
